import Mathlib

/- Verification of the timeback-client HTTP client library.

This file gives a shallow embedding of the request-building and
response-handling logic of the library (src/timeback_client) and proves
properties of it.  Python dictionaries and JSON values are modelled by the
inductive type Py below; functions that can raise model the raised
exception through Except PyErr.  Every embedded definition carries a doc
comment naming the Python function or class it is translated from. -/

/-- Model of a Python value as it occurs in this client: JSON data, request
payloads and query-parameter values.  Python dicts preserve insertion
order, so objects are association lists.  JSON numbers appear in this
code base only as integers (limit, offset, expires_in); floats are not
modelled. -/
inductive Py where
  | pynone
  | str (s : String)
  | int (n : Int)
  | bool (b : Bool)
  | list (xs : List Py)
  | dict (kvs : List (String × Py))
  deriving Repr, Inhabited

/-- Python truthiness (bool(x)) for the modelled values: None, empty
strings, zero, False, and empty containers are falsy. -/
def pyTruthy : Py → Bool
  | .pynone => false
  | .str s => !s.isEmpty
  | .int n => n != 0
  | .bool b => b
  | .list xs => !xs.isEmpty
  | .dict kvs => !kvs.isEmpty

/-- Truthiness of an optional value, as used for dict.get results (a
missing key yields None, which is falsy). -/
def pyTruthyOpt : Option Py → Bool
  | some v => pyTruthy v
  | Option.none => false

/-- Truthiness of an optional Python string (None or empty string are
falsy). -/
def truthyOptStr : Option String → Bool
  | some s => !s.isEmpty
  | Option.none => false

/-- Python dict assignment d[k] = v on an insertion-ordered dict: replace
the value in place when the key exists, append otherwise. -/
def dictSet (kvs : List (String × Py)) (k : String) (v : Py) : List (String × Py) :=
  match kvs with
  | [] => [(k, v)]
  | (k0, v0) :: rest => if k0 == k then (k0, v) :: rest else (k0, v0) :: dictSet rest k v

/-- Python dict.update(extra): assign every key of extra in order. -/
def dictUpdate (kvs extra : List (String × Py)) : List (String × Py) :=
  extra.foldl (fun acc kv => dictSet acc kv.1 kv.2) kvs

/-- Check that the first list starts the second one, character by
character. -/
def charsStart : List Char → List Char → Bool
  | [], _ => true
  | _ :: _, [] => false
  | a :: as, b :: bs => a == b && charsStart as bs

/-- Check that the first list occurs contiguously inside the second. -/
def charsHas (needle : List Char) : List Char → Bool
  | [] => needle.isEmpty
  | b :: bs => charsStart needle (b :: bs) || charsHas needle bs

/-- Python substring test (needle in hay) on strings. -/
def pyInStr (needle hay : String) : Bool :=
  charsHas needle.data hay.data

/-- Python text.strip() emptiness test: the stripped text is empty
exactly when every character is whitespace (not response.text.strip(),
core/client.py line 162).  ASCII whitespace is modelled. -/
def pyStripEmpty (s : String) : Bool :=
  s.data.all Char.isWhitespace

/-- Python str.lower(), modelled on the ASCII range (every string it is
applied to in this development is ASCII). -/
def lowerStr (s : String) : String :=
  String.mk (s.data.map Char.toLower)

/-- Lexicographic comparison of character lists by code point, the order
Python uses to compare strings. -/
def charsLE : List Char → List Char → Bool
  | [], _ => true
  | _ :: _, [] => false
  | a :: as, b :: bs =>
    if a.toNat = b.toNat then charsLE as bs else decide (a.toNat < b.toNat)

/-- Python string comparison s <= t (lexicographic by code point). -/
def strLE (s t : String) : Bool :=
  charsLE s.data t.data

/-- Single-quote character, built from its code point so that string
literals in this file stay plain. -/
def quoteCh : String := String.mk [Char.ofNat 39]

mutual
/-- Python repr for the modelled values.  For strings the quoting is
modelled without escape sequences, which agrees with Python on strings
free of quotes, backslashes and control characters; every theorem below
that evaluates repr does so only on such values. -/
def pyRepr : Py → String
  | .pynone => "None"
  | .str s => quoteCh ++ s ++ quoteCh
  | .int n => toString n
  | .bool b => if b then "True" else "False"
  | .list xs => "[" ++ String.intercalate ", " (pyReprList xs) ++ "]"
  | .dict kvs => "\x7b" ++ String.intercalate ", " (pyReprKvs kvs) ++ "\x7d"

/-- Helper of pyRepr for lists of values. -/
def pyReprList : List Py → List String
  | [] => []
  | x :: xs => pyRepr x :: pyReprList xs

/-- Helper of pyRepr for dict entries. -/
def pyReprKvs : List (String × Py) → List String
  | [] => []
  | (k, v) :: kvs => (quoteCh ++ k ++ quoteCh ++ ": " ++ pyRepr v) :: pyReprKvs kvs
end

/-- Python str(x): identity on strings, repr on the other modelled
values (which matches Python for None, bool, int, list and dict). -/
def pyStr : Py → String
  | .str s => s
  | v => pyRepr v

/-- Exceptions raised by the modelled code paths. -/
inductive PyErr where
  | httpError (status : Nat) (body : String)
  | valueError (msg : String)
  | validationError (msg : String)
  | attributeError (attr : String)
  | typeError (msg : String)
  deriving Repr, DecidableEq

/-- An HTTP response as the client observes it: the status code, the raw
body text, and the result of attempting to parse the body as JSON
(None when json.loads would raise JSONDecodeError). -/
structure HttpResponse where
  status : Nat
  text : String
  jsonBody : Option Py
  deriving Repr, Inhabited

/-- requests.Response.ok: True exactly when raise_for_status would not
raise, that is when the status code is outside 400..599. -/
def pyOk (status : Nat) : Bool :=
  !(400 ≤ status && status < 600)

/-- An invocation of TimeBackService._make_request, i.e. the arguments a
service method passes down: endpoint, HTTP method, JSON payload and
query parameters (core/client.py lines 105-111). -/
structure ApiCall where
  endpoint : String
  method : String
  data : Py
  params : List (String × Py)
  deriving Repr

/-- Lookup of a field on a JSON object with a default, modelling
x.get(sort_field, ...): a non-dict key or a missing key yields the
default (core/client.py line 212). -/
def pyGetD (x : Py) (key : Py) (dflt : Py) : Py :=
  match x, key with
  | .dict kvs, .str k => (List.lookup k kvs).getD dflt
  | _, _ => dflt

/-- Sort key used by _apply_case_insensitive_sort:
str(x.get(sort_field, "")).lower() (core/client.py line 212). -/
def sortKeyOf (sortField : Py) (x : Py) : String :=
  lowerStr (pyStr (pyGetD x sortField (Py.str "")))

/-- Whether a value is a Python dict; items of a collection must be dicts
for x.get to exist. -/
def isDictPy : Py → Bool
  | .dict _ => true
  | _ => false

/-- Python sorted(items, key, reverse): a stable sort by the key.  A
stable sort is uniquely determined by the key order, so the stable
insertion sort used here produces exactly the list CPython produces. -/
def pySortedBy (key : Py → String) (reverse : Bool) (items : List Py) : List Py :=
  if reverse then
    @List.insertionSort Py (fun a b => strLE (key b) (key a) = true)
      (fun _ _ => inferInstance) items
  else
    @List.insertionSort Py (fun a b => strLE (key a) (key b) = true)
      (fun _ _ => inferInstance) items

/-- First key of a JSON object whose value is a list, with that list:
next((k for k in response_data.keys() if isinstance(response_data[k],
list)), None) (core/client.py line 204). -/
def firstListEntry : List (String × Py) → Option (String × List Py)
  | [] => Option.none
  | (k, Py.list xs) :: _ => some (k, xs)
  | _ :: rest => firstListEntry rest

/-- TimeBackService._apply_case_insensitive_sort (core/client.py lines
183-217).  The collection is left unchanged when no key holds a list,
when the first such key is the empty string (falsy), or when its list is
empty.  Otherwise the list is re-sorted by the lower-cased string value
of the sort field, descending when order_by.lower() is desc.  A non-str
order_by would fail on .lower(), and a non-dict item on .get; both are
modelled as the AttributeError Python raises. -/
def applySortCI (kvs : List (String × Py)) (sortField orderBy : Py) :
    Except PyErr (List (String × Py)) :=
  match firstListEntry kvs with
  | Option.none => .ok kvs
  | some (k, items) =>
    if k.isEmpty || items.isEmpty then .ok kvs
    else match orderBy with
      | .str ob =>
        if items.all isDictPy then
          .ok (dictSet kvs k
            (.list (pySortedBy (sortKeyOf sortField) (lowerStr ob == "desc") items)))
        else .error (.attributeError "get")
      | _ => .error (.attributeError "lower")

/-- Success payload returned for an empty response body
(core/client.py line 164). -/
def emptyMsgPy : Py :=
  .dict [("message", .str "Success (empty response)")]

/-- Success payload returned for a body that is not JSON
(core/client.py line 181). -/
def nonJsonMsgPy (text : String) : Py :=
  .dict [("message", .str "Success (non-JSON response)"), ("text", .str text)]

/-- Whether the request params trigger the client-side sort:
params and "sort" in params and "orderBy" in params
(core/client.py line 171). -/
def sortParamsPresent (params : List (String × Py)) : Bool :=
  !params.isEmpty && (List.lookup "sort" params).isSome
    && (List.lookup "orderBy" params).isSome

/-- Sort step of TimeBackService._make_request (core/client.py lines
170-177): when the params carry both sort and orderBy, the parsed body
goes through _apply_case_insensitive_sort; a parsed body that is not a
JSON object fails on .keys() there. -/
def sortStep (params : List (String × Py)) (rd : Py) : Except PyErr Py :=
  if sortParamsPresent params then
    match rd with
    | .dict kvs =>
      match applySortCI kvs ((List.lookup "sort" params).getD .pynone)
          ((List.lookup "orderBy" params).getD .pynone) with
      | .ok kvs2 => .ok (.dict kvs2)
      | .error e => .error e
    | _ => .error (.attributeError "keys")
  else .ok rd

/-- Response handling of TimeBackService._make_request (core/client.py
lines 155-181): raise_for_status raises requests.HTTPError carrying the
response (status code and body text) exactly for status codes 400..599;
an empty (after strip) body yields the empty-response message; a body
that fails JSON parsing yields the non-JSON message; otherwise the
parsed body is returned after the client-side sort step. -/
def handleResponse (params : List (String × Py)) (resp : HttpResponse) :
    Except PyErr Py :=
  if 400 ≤ resp.status && resp.status < 600 then
    .error (.httpError resp.status resp.text)
  else if pyStripEmpty resp.text then
    .ok emptyMsgPy
  else match resp.jsonBody with
    | Option.none => .ok (nonJsonMsgPy resp.text)
    | some rd => sortStep params rd

/-- QTIService.DEFAULT_QTI_PRODUCTION_URL (core/client.py line 399). -/
def qtiProductionUrl : String := "https://qti.alpha-1edtech.com/api"

/-- Python endpoint.lstrip(SLASH): drop every leading slash. -/
def lstripSlashes (s : String) : String :=
  String.mk (s.data.dropWhile (fun c => decide (c = '/')))

/-- urljoin(base + SLASH, endpoint.lstrip(SLASH)) as used throughout the
client: base carries no trailing slash and the stripped endpoint is a
relative path reference, for which urljoin is plain concatenation. -/
def joinUrl (base endpoint : String) : String :=
  base ++ "/" ++ lstripSlashes endpoint

/-- Payload passed to requests.request: json=data if data else None
(assessment_items.py line 73, qti_stimulus.py line 72). -/
def qtiBody (data : Py) : Py :=
  if pyTruthy data then data else .pynone

/-- A concrete HTTP request issued by the QTI _make_request overrides. -/
structure QtiRequest where
  method : String
  url : String
  body : Py
  params : List (String × Py)
  deriving Repr

/-- First request issued by AssessmentItemsAPI._make_request and
StimulusAPI._make_request, against the configured QTI base URL
(assessment_items.py lines 55-75, qti_stimulus.py lines 51-74). -/
def qtiFirstRequest (qtiUrl endpoint method : String) (data : Py)
    (params : List (String × Py)) : QtiRequest :=
  ⟨method, joinUrl qtiUrl endpoint, qtiBody data, params⟩

/-- Retry condition of the QTI overrides: response.status_code == 404 and
getattr(self, "environment", "").lower() == "staging"
(assessment_items.py line 78, qti_stimulus.py line 77). -/
def qtiRetryCond (env : String) (firstStatus : Nat) : Bool :=
  firstStatus == 404 && lowerStr env == "staging"

/-- Sequence of requests issued by the QTI _make_request overrides for one
call: the first request, followed by one identical request against the
production QTI base URL when the retry condition holds
(assessment_items.py lines 69-89, qti_stimulus.py lines 68-88). -/
def qtiRequests (env qtiUrl endpoint method : String) (data : Py)
    (params : List (String × Py)) (resp1 : HttpResponse) : List QtiRequest :=
  let r1 := qtiFirstRequest qtiUrl endpoint method data params
  if qtiRetryCond env resp1.status then
    [r1, { r1 with url := joinUrl qtiProductionUrl endpoint }]
  else
    [r1]

/-- Response handling of the QTI _make_request overrides
(assessment_items.py lines 91-108, qti_stimulus.py lines 90-106): the
same status / empty-body / non-JSON handling as the core client, without
the client-side sort step. -/
def qtiHandle (resp : HttpResponse) : Except PyErr Py :=
  if 400 ≤ resp.status && resp.status < 600 then
    .error (.httpError resp.status resp.text)
  else if pyStripEmpty resp.text then
    .ok emptyMsgPy
  else match resp.jsonBody with
    | Option.none => .ok (nonJsonMsgPy resp.text)
    | some rd => .ok rd

/-- Outcome of one QTI _make_request call, given the response to the
first request and the response the production endpoint would give: the
handled response is the retried one exactly when the retry fired. -/
def qtiOutcome (env : String) (resp1 resp2 : HttpResponse) : Except PyErr Py :=
  qtiHandle (if qtiRetryCond env resp1.status then resp2 else resp1)

/-- Cached-token state of a TimeBackService: _access_token and
_token_expiry (core/client.py lines 56-57).  Times are modelled as
integers; only their ordering is ever used. -/
structure AuthState where
  accessToken : Option String
  tokenExpiry : Option Int
  deriving Repr, DecidableEq

/-- Body of a successful IDP token response: access_token and expires_in
(core/client.py lines 99-101). -/
structure TokenData where
  accessToken : String
  expiresIn : Int
  deriving Repr, DecidableEq

/-- Result of one _get_auth_token call: the returned token, the cache
state afterwards, and whether a token request went out. -/
structure AuthOutcome where
  token : Option String
  state : AuthState
  requested : Bool
  deriving Repr, DecidableEq

/-- Truthiness of the cached expiry (a float in Python; zero is falsy). -/
def truthyOptInt : Option Int → Bool
  | some n => n != 0
  | Option.none => false

/-- TimeBackService._get_auth_token (core/client.py lines 60-103): return
the cached token while it is truthy and unexpired; return None when
either credential is falsy; otherwise request a fresh token (td models
the parsed response) and cache it with expiry now + expires_in - 60. -/
def getAuthToken (st : AuthState) (clientId clientSecret : Option String)
    (now : Int) (td : TokenData) : AuthOutcome :=
  if truthyOptStr st.accessToken && truthyOptInt st.tokenExpiry
      && decide (now < st.tokenExpiry.getD 0) then
    ⟨st.accessToken, st, false⟩
  else if !(truthyOptStr clientId && truthyOptStr clientSecret) then
    ⟨Option.none, st, false⟩
  else
    ⟨some td.accessToken,
     ⟨some td.accessToken, some (now + td.expiresIn - 60)⟩, true⟩

/-- Authorization header added by _make_request when the token is truthy
(core/client.py lines 136-139). -/
def authHeaderOf (token : Option String) : Option String :=
  match token with
  | some t => if t.isEmpty then Option.none else some ("Bearer " ++ t)
  | Option.none => Option.none

/-- Pydantic field read for a required string field: missing or non-str
values make construction fail. -/
def reqStr (kvs : List (String × Py)) (k : String) : Except PyErr String :=
  match List.lookup k kvs with
  | some (.str s) => .ok s
  | some _ => .error (.validationError (k ++ ": string expected"))
  | Option.none => .error (.validationError (k ++ ": field required"))

/-- Pydantic field read for a required list field. -/
def reqList (kvs : List (String × Py)) (k : String) : Except PyErr (List Py) :=
  match List.lookup k kvs with
  | some (.list xs) => .ok xs
  | some _ => .error (.validationError (k ++ ": list expected"))
  | Option.none => .error (.validationError (k ++ ": field required"))

/-- Pydantic field read for a string field with a default. -/
def optStrD (kvs : List (String × Py)) (k : String) (dflt : String) :
    Except PyErr String :=
  match List.lookup k kvs with
  | some (.str s) => .ok s
  | some _ => .error (.validationError (k ++ ": string expected"))
  | Option.none => .ok dflt

/-- Pydantic field read for an Optional[str] field (None and absent both
give None). -/
def optStrField (kvs : List (String × Py)) (k : String) :
    Except PyErr (Option String) :=
  match List.lookup k kvs with
  | some (.str s) => .ok (some s)
  | some .pynone => .ok Option.none
  | some _ => .error (.validationError (k ++ ": string expected"))
  | Option.none => .ok Option.none

/-- The User pydantic model (models/user.py lines 92-143).  Required
fields are givenName, familyName and roles; sourcedId, status,
dateLastModified and enabledUser have defaults.  Role assignments and
the remaining optional fields are carried as raw modelled values: their
element-level pydantic validation is not exercised by any claim, only
the validate_roles check on the length of roles is. -/
structure UserModel where
  givenName : String
  familyName : String
  roles : List Py
  sourcedId : String
  status : String
  dateLastModified : Py
  enabledUser : Py
  email : Option Py
  phone : Option Py
  address : Option Py
  metadata : Option Py
  userMasterIdentifier : Option Py
  username : Option Py
  userIds : List Py
  middleName : Option Py
  preferredFirstName : Option Py
  preferredMiddleName : Option Py
  preferredLastName : Option Py
  pronouns : Option Py
  userProfiles : List Py
  primaryOrg : Option Py
  identifier : Option Py
  sms : Option Py
  agents : List Py
  grades : List Py
  password : Option Py
  resources : List Py
  deriving Repr

/-- Pydantic field read for a list field with default_factory=list. -/
def optListD (kvs : List (String × Py)) (k : String) : Except PyErr (List Py) :=
  match List.lookup k kvs with
  | some (.list xs) => .ok xs
  | some _ => .error (.validationError (k ++ ": list expected"))
  | Option.none => .ok []

/-- Construction of a User from keyword arguments, User(**user_dict)
(models/user.py lines 92-143): required fields must be present, the
validate_roles validator rejects an empty roles list, status must be one
of the UserStatus values, and a missing sourcedId gets the generated
uuid4 value, passed in here as freshId. -/
def mkUser (kvs : List (String × Py)) (freshId : String) :
    Except PyErr UserModel :=
  match reqStr kvs "givenName" with
  | .error e => .error e
  | .ok g =>
  match reqStr kvs "familyName" with
  | .error e => .error e
  | .ok fam =>
  match reqList kvs "roles" with
  | .error e => .error e
  | .ok rs =>
  if rs.isEmpty then .error (.validationError "At least one role is required")
  else
  match optStrD kvs "sourcedId" freshId with
  | .error e => .error e
  | .ok sid =>
  match optStrD kvs "status" "active" with
  | .error e => .error e
  | .ok st =>
  if st ≠ "active" && st ≠ "tobedeleted" then
    .error (.validationError "status: invalid UserStatus")
  else
  match optListD kvs "userIds" with
  | .error e => .error e
  | .ok uids =>
  match optListD kvs "userProfiles" with
  | .error e => .error e
  | .ok profs =>
  match optListD kvs "agents" with
  | .error e => .error e
  | .ok ags =>
  match optListD kvs "grades" with
  | .error e => .error e
  | .ok grs =>
  match optListD kvs "resources" with
  | .error e => .error e
  | .ok ress =>
  .ok
    { givenName := g, familyName := fam, roles := rs, sourcedId := sid,
      status := st,
      dateLastModified := (List.lookup "dateLastModified" kvs).getD .pynone,
      enabledUser := (List.lookup "enabledUser" kvs).getD (.bool true),
      email := List.lookup "email" kvs,
      phone := List.lookup "phone" kvs,
      address := List.lookup "address" kvs,
      metadata := List.lookup "metadata" kvs,
      userMasterIdentifier := List.lookup "userMasterIdentifier" kvs,
      username := List.lookup "username" kvs,
      userIds := uids,
      middleName := List.lookup "middleName" kvs,
      preferredFirstName := List.lookup "preferredFirstName" kvs,
      preferredMiddleName := List.lookup "preferredMiddleName" kvs,
      preferredLastName := List.lookup "preferredLastName" kvs,
      pronouns := List.lookup "pronouns" kvs,
      userProfiles := profs,
      primaryOrg := List.lookup "primaryOrg" kvs,
      identifier := List.lookup "identifier" kvs,
      sms := List.lookup "sms" kvs,
      agents := ags,
      grades := grs,
      password := List.lookup "password" kvs,
      resources := ress }

/-- Attribute lookup of to_dict on a User instance.  The User model in
models/user.py defines to_api_dict, to_create_dict and to_update_dict
and inherits the pydantic BaseModel serializers (model_dump, dict,
json); none of them is named to_dict, so the lookup finds nothing and
user.to_dict() raises AttributeError. -/
def userToDictAttr : Option (UserModel → Py) := Option.none

/-- UsersAPI.create_user for a User model argument (users.py lines
55-63): validate sourcedId, then call user.to_dict() to build the POST
body. -/
def createUserFromModel (u : UserModel) : Except PyErr ApiCall :=
  if u.sourcedId.isEmpty then
    .error (.valueError "sourcedId is required when creating a user")
  else match userToDictAttr with
    | Option.none => .error (.attributeError "to_dict")
    | some f => .ok ⟨"/users", "POST", f u, []⟩

/-- UsersAPI.update_user for a User model argument (users.py lines
159-163): call user.to_dict() to build the PUT body. -/
def updateUserFromModel (userId : String) (u : UserModel) : Except PyErr ApiCall :=
  match userToDictAttr with
  | Option.none => .error (.attributeError "to_dict")
  | some f => .ok ⟨"/users/" ++ userId, "PUT", f u, []⟩

/-- Unwrapping of a dict argument in create_user / update_user (users.py
lines 45-53, 149-157): take the value under the user key when present,
the dict itself otherwise; a non-mapping value under the user key makes
User(**user_dict) raise TypeError. -/
def innerUserDict (kvs : List (String × Py)) :
    Except PyErr (List (String × Py)) :=
  match List.lookup "user" kvs with
  | some (.dict d) => .ok d
  | some _ => .error (.typeError "argument after ** must be a mapping")
  | Option.none => .ok kvs

/-- UsersAPI.create_user for a dict argument (users.py lines 44-63). -/
def createUserFromDict (kvs : List (String × Py)) (freshId : String) :
    Except PyErr ApiCall :=
  match innerUserDict kvs with
  | .error e => .error e
  | .ok d =>
  match mkUser d freshId with
  | .error e => .error e
  | .ok u => createUserFromModel u

/-- UsersAPI.update_user for a dict argument (users.py lines 148-163). -/
def updateUserFromDict (userId : String) (kvs : List (String × Py))
    (freshId : String) : Except PyErr ApiCall :=
  match innerUserDict kvs with
  | .error e => .error e
  | .ok d =>
  match mkUser d freshId with
  | .error e => .error e
  | .ok u => updateUserFromModel userId u

/-- Truthiness of requests.Response: Response.__bool__ returns self.ok,
so a response with a 4xx/5xx status is falsy.  The 404 handler in
UsersAPI.delete_user tests hasattr(e, "response") and e.response and
e.response.status_code == 404 (users.py lines 211, 219); the middle
conjunct is this truthiness. -/
def respTruthy (status : Nat) : Bool := pyOk status

/-- Whether the fetched status field equals tobedeleted
(users.py line 195). -/
def statusToBeDeleted : Option Py → Bool
  | some (.str s) => s == "tobedeleted"
  | _ => false

/-- Result of one delete_user call: either an ApiCall handed to
_make_request, or a success-message dict returned without any further
request. -/
inductive DeleteOutcome where
  | call (c : ApiCall)
  | message (m : Py)
  deriving Repr

/-- Message returned when the initial fetch got a 404 (users.py lines
213, 221). -/
def notFoundMsg (userId : String) : Py :=
  .dict [("message", .str ("User " ++ userId ++ " not found or already deleted"))]

/-- Message returned when the user is already marked for deletion
(users.py line 197). -/
def alreadyMsg (userId : String) : Py :=
  .dict [("message", .str ("User " ++ userId ++ " is already marked for deletion"))]

/-- UsersAPI.delete_user (users.py lines 165-222), the fetch outcome of
get_user given as an oracle (its JSON object on success, the raised
exception on failure).  On a fetch error, both except clauses run the
guard hasattr(e, "response") and e.response and status == 404, with
bool(e.response) = respTruthy; an HTTPError always carries its response.
On success: a missing user key raises ValueError; a status of
tobedeleted returns the already-deleted message with no request;
otherwise the fetched user data goes back out in a PUT with status
overwritten to tobedeleted. -/
def deleteUser (userId : String)
    (fetched : Except PyErr (List (String × Py))) : Except PyErr DeleteOutcome :=
  match fetched with
  | .error e =>
    match e with
    | .httpError st _ =>
      if respTruthy st && st == 404 then .ok (.message (notFoundMsg userId))
      else .error e
    | _ => .error e
  | .ok kvs =>
    match List.lookup "user" kvs with
    | Option.none =>
      .error (.valueError ("Invalid response format when fetching user " ++ userId))
    | some userData =>
      match userData with
      | .dict ukvs =>
        if statusToBeDeleted (List.lookup "status" ukvs) then
          .ok (.message (alreadyMsg userId))
        else
          .ok (.call ⟨"/users/" ++ userId, "PUT",
            .dict [("user", .dict (dictSet ukvs "status" (.str "tobedeleted")))], []⟩)
      | _ => .error (.attributeError "get")

/-- The default filter list_users applies (users.py line 127). -/
def statusActiveFilter : String :=
  "status=" ++ quoteCh ++ "active" ++ quoteCh

/-- Python expression filter_expr or filter: the first operand when it is
truthy, the second otherwise (users.py line 122). -/
def pyOrStrOpt (a b : Option String) : Option String :=
  match a with
  | some s => if s.isEmpty then b else some s
  | Option.none => b

/-- Filter value list_users always sends (users.py lines 122-128): the
status=active default when the caller passed nothing truthy; the caller
value with AND status=active appended when it lacks the substring
status=; the caller value unchanged otherwise. -/
def usersFilterValue (filterExpr filter : Option String) : String :=
  match pyOrStrOpt filterExpr filter with
  | some v =>
    if v.isEmpty then statusActiveFilter
    else if pyInStr "status=" v then v
    else v ++ " AND " ++ statusActiveFilter
  | Option.none => statusActiveFilter

/-- Conditional param assignment for an is-not-None guard:
if x is not None: params[k] = x (users.py lines 114-117). -/
def setOptInt (kvs : List (String × Py)) (k : String) (v : Option Int) :
    List (String × Py) :=
  match v with
  | some n => dictSet kvs k (.int n)
  | Option.none => kvs

/-- Conditional param assignment for a truthiness guard:
if x: params[k] = x (users.py lines 118-121). -/
def setTruthyStr (kvs : List (String × Py)) (k : String) (v : Option String) :
    List (String × Py) :=
  match v with
  | some s => if s.isEmpty then kvs else dictSet kvs k (.str s)
  | Option.none => kvs

/-- Conditional fields param: if fields: params["fields"] = ",".join(fields)
(users.py lines 129-130, orgs.py lines 232-233). -/
def setFields (kvs : List (String × Py)) (v : Option (List String)) :
    List (String × Py) :=
  match v with
  | some fs =>
    if fs.isEmpty then kvs else dictSet kvs "fields" (.str (String.intercalate "," fs))
  | Option.none => kvs

/-- Query params built by UsersAPI.list_users (users.py lines 113-132):
limit and offset under an is-not-None guard, sort and orderBy under a
truthiness guard, the always-present filter, fields joined with commas,
and finally params.update(extra_params). -/
def listUsersParams (limit offset : Option Int)
    (sort orderBy filterExpr filter : Option String)
    (fields : Option (List String)) (extra : List (String × Py)) :
    List (String × Py) :=
  dictUpdate
    (setFields
      (dictSet
        (setTruthyStr
          (setTruthyStr
            (setOptInt (setOptInt [] "limit" limit) "offset" offset)
            "sort" sort)
          "orderBy" orderBy)
        "filter" (.str (usersFilterValue filterExpr filter)))
      fields)
    extra

/-- Query params built by OrgsAPI.list_orgs (orgs.py lines 221-233):
like list_users but the filter is only set when filter_expr is truthy,
and there are no extra params. -/
def listOrgsParams (limit offset : Option Int)
    (sort orderBy filterExpr : Option String)
    (fields : Option (List String)) : List (String × Py) :=
  setFields
    (setTruthyStr
      (setTruthyStr
        (setTruthyStr
          (setOptInt (setOptInt [] "limit" limit) "offset" offset)
          "sort" sort)
        "orderBy" orderBy)
      "filter" filterExpr)
    fields

/-- Valid OrgType values (models/org.py lines 24-31). -/
def orgTypes : List String :=
  ["department", "school", "district", "local", "state", "national"]

/-- The Org pydantic model (models/org.py lines 43-73): required name and
type, defaulted sourcedId, status and dateLastModified, optional
metadata, identifier and parent.  A parent OrgRef is carried as its
sourcedId together with its type field (default org). -/
structure Org where
  name : String
  type : String
  sourcedId : String
  status : String
  dateLastModified : String
  metadata : Option Py
  identifier : Option String
  parent : Option (String × String)
  deriving Repr

/-- Pydantic read of the optional metadata dict field. -/
def optDictField (kvs : List (String × Py)) (k : String) :
    Except PyErr (Option Py) :=
  match List.lookup k kvs with
  | some (.dict d) => .ok (some (.dict d))
  | some .pynone => .ok Option.none
  | some _ => .error (.validationError (k ++ ": dict expected"))
  | Option.none => .ok Option.none

/-- Pydantic read of the optional parent OrgRef field (models/org.py
lines 38-41): a dict with a string sourcedId and a type defaulting to
org. -/
def optParentField (kvs : List (String × Py)) :
    Except PyErr (Option (String × String)) :=
  match List.lookup "parent" kvs with
  | some (.dict d) =>
    (match reqStr d "sourcedId", optStrD d "type" "org" with
     | .ok sid, .ok t => .ok (some (sid, t))
     | .error e, _ => .error e
     | _, .error e => .error e)
  | some .pynone => .ok Option.none
  | some _ => .error (.validationError "parent: OrgRef expected")
  | Option.none => .ok Option.none

/-- Construction of an Org from keyword arguments, Org(**org_dict)
(models/org.py lines 43-73): name and type are required and type must be
a valid OrgType, status must be a valid Status; the defaults for
sourcedId (uuid4) and dateLastModified (the current UTC timestamp) are
passed in as freshId and nowStr. -/
def mkOrg (kvs : List (String × Py)) (freshId nowStr : String) :
    Except PyErr Org :=
  match reqStr kvs "name" with
  | .error e => .error e
  | .ok n =>
  match reqStr kvs "type" with
  | .error e => .error e
  | .ok t =>
  if !(orgTypes.contains t) then .error (.validationError "type: invalid OrgType")
  else
  match optStrD kvs "sourcedId" freshId with
  | .error e => .error e
  | .ok sid =>
  match optStrD kvs "status" "active" with
  | .error e => .error e
  | .ok st =>
  if st ≠ "active" && st ≠ "tobedeleted" then
    .error (.validationError "status: invalid Status")
  else
  match optStrD kvs "dateLastModified" nowStr with
  | .error e => .error e
  | .ok dlm =>
  match optDictField kvs "metadata" with
  | .error e => .error e
  | .ok meta =>
  match optStrField kvs "identifier" with
  | .error e => .error e
  | .ok ident =>
  match optParentField kvs with
  | .error e => .error e
  | .ok par =>
  .ok
    { name := n, type := t, sourcedId := sid, status := st,
      dateLastModified := dlm, metadata := meta, identifier := ident,
      parent := par }

/-- Org.to_dict(wrapped=True) (models/org.py lines 75-90):
model_dump(exclude_none=True) in field-definition order, wrapped under
the org key.  The dateLastModified default-refresh branch at line 88 is
dead: the field always carries a value after model_dump. -/
def orgToDict (o : Org) : Py :=
  let base : List (String × Py) :=
    [("name", .str o.name), ("type", .str o.type),
     ("sourcedId", .str o.sourcedId), ("status", .str o.status),
     ("dateLastModified", .str o.dateLastModified)]
  let withMeta :=
    match o.metadata with
    | some m => base ++ [("metadata", m)]
    | Option.none => base
  let withIdent :=
    match o.identifier with
    | some i => withMeta ++ [("identifier", .str i)]
    | Option.none => withMeta
  let withParent :=
    match o.parent with
    | some (sid, t) =>
      withIdent ++ [("parent", .dict [("sourcedId", .str sid), ("type", .str t)])]
    | Option.none => withIdent
  .dict [("org", .dict withParent)]

/-- Error message for a missing organization name (orgs.py line 82). -/
def orgNameReqMsg : String := "name is required when creating an organization"

/-- Error message for a missing organization type (orgs.py line 85). -/
def orgTypeReqMsg : String := "type is required when creating an organization"

/-- Unwrapping of a dict argument in create_org (orgs.py lines 72-78):
a wrapped dict is validated on its inner org dict but sent as-is; an
unwrapped dict is wrapped under org for sending.  A non-dict value under
the org key makes org_dict.get raise AttributeError. -/
def createOrgDictParts (kvs : List (String × Py)) :
    Except PyErr (List (String × Py) × Py) :=
  match List.lookup "org" kvs with
  | some (.dict d) => .ok (d, .dict kvs)
  | some _ => .error (.attributeError "get")
  | Option.none => .ok (kvs, .dict [("org", .dict kvs)])

/-- OrgsAPI.create_org (orgs.py lines 71-106): for a dict argument,
check that name and type are truthy in the inner org dict and send the
(possibly wrapped) dict; for an Org model, check that name is truthy and
send org.to_dict(). -/
def createOrg (input : Sum Org (List (String × Py))) : Except PyErr ApiCall :=
  match input with
  | .inr kvs =>
    match createOrgDictParts kvs with
    | .error e => .error e
    | .ok (d, reqData) =>
      if !pyTruthyOpt (List.lookup "name" d) then
        .error (.valueError orgNameReqMsg)
      else if !pyTruthyOpt (List.lookup "type" d) then
        .error (.valueError orgTypeReqMsg)
      else .ok ⟨"/orgs", "POST", reqData, []⟩
  | .inl o =>
    if o.name.isEmpty then .error (.valueError orgNameReqMsg)
    else .ok ⟨"/orgs", "POST", orgToDict o, []⟩

/-- OrgsAPI.update_org for an Org model argument (orgs.py lines 158-169):
overwrite sourcedId with the URL parameter when they differ, then PUT
org.to_dict(). -/
def updateOrgModel (orgId : String) (o : Org) : ApiCall :=
  let o2 := if o.sourcedId ≠ orgId then { o with sourcedId := orgId } else o
  ⟨"/orgs/" ++ orgId, "PUT", orgToDict o2, []⟩

/-- Unwrapping of a dict argument in update_org (orgs.py lines 144-149):
take the inner org dict when wrapped; a non-dict value under the org key
makes the sourcedId membership test raise TypeError. -/
def innerOrgForUpdate (kvs : List (String × Py)) :
    Except PyErr (List (String × Py)) :=
  match List.lookup "org" kvs with
  | some (.dict d) => .ok d
  | some _ => .error (.typeError "argument of type is not iterable")
  | Option.none => .ok kvs

/-- OrgsAPI.update_org for a dict argument (orgs.py lines 144-169):
default a missing sourcedId to the URL parameter, build the Org model,
then proceed as for a model argument. -/
def updateOrgDict (orgId : String) (kvs : List (String × Py))
    (freshId nowStr : String) : Except PyErr ApiCall :=
  match innerOrgForUpdate kvs with
  | .error e => .error e
  | .ok d =>
  match mkOrg (if (List.lookup "sourcedId" d).isSome then d
               else dictSet d "sourcedId" (.str orgId)) freshId nowStr with
  | .error e => .error e
  | .ok m => .ok (updateOrgModel orgId m)

/-- Expected query-param presence for an argument guarded by truthiness:
present with the exact caller string when truthy, absent otherwise. -/
def optTruthyStrParam : Option String → Option Py
  | some s => if s.isEmpty then Option.none else some (.str s)
  | Option.none => Option.none

/-- Expected fields query param: the caller list joined with commas when
truthy, absent otherwise. -/
def fieldsParamVal : Option (List String) → Option Py
  | some fs =>
    if fs.isEmpty then Option.none
    else some (.str (String.intercalate "," fs))
  | Option.none => Option.none

/-- The query-parameter keys the list endpoints set themselves. -/
def stdParamKeys : List String :=
  ["limit", "offset", "sort", "orderBy", "filter", "fields"]

/-- A well-formed User model value: one student role and sourcedId u-1,
as the repository test suite constructs (tests/test_users.py lines
30-40). -/
def exampleUser : UserModel :=
  { givenName := "Test", familyName := "User",
    roles := [Py.dict [("role", Py.str "student")]],
    sourcedId := "u-1", status := "active",
    dateLastModified := .pynone, enabledUser := .bool true,
    email := Option.none, phone := Option.none, address := Option.none,
    metadata := Option.none, userMasterIdentifier := Option.none,
    username := Option.none, userIds := [], middleName := Option.none,
    preferredFirstName := Option.none, preferredMiddleName := Option.none,
    preferredLastName := Option.none, pronouns := Option.none,
    userProfiles := [], primaryOrg := Option.none, identifier := Option.none,
    sms := Option.none, agents := [], grades := [], password := Option.none,
    resources := [] }

/-- A well-formed Org model value with a sourcedId different from the
update target. -/
def exampleOrg : Org :=
  { name := "Springfield High School", type := "school",
    sourcedId := "org-old", status := "active",
    dateLastModified := "2025-01-01T00:00:00Z",
    metadata := Option.none, identifier := Option.none,
    parent := Option.none }

/-- Query params of a sorted list_users call, for evaluating the
client-side sort. -/
def exSortParams : List (String × Py) :=
  [("sort", .str "familyName"), ("orderBy", .str "desc")]

/-- A users collection whose case-sensitive and case-insensitive orders
differ. -/
def exUsersItems : List Py :=
  [Py.dict [("familyName", Py.str "b")], Py.dict [("familyName", Py.str "A")]]

/-- Response body holding the users collection. -/
def exSortKvs : List (String × Py) :=
  [("total", .int 2), ("users", .list exUsersItems)]

/-- A 200 response carrying that body. -/
def exSortResp : HttpResponse :=
  ⟨200, "body", some (.dict exSortKvs)⟩

theorem lookup_dictSet_self (kvs : List (String × Py)) (k : String) (v : Py) :
    List.lookup k (dictSet kvs k v) = some v := by
  induction kvs with
  | nil => simp [dictSet, List.lookup]
  | cons kv rest ih =>
    obtain ⟨k0, v0⟩ := kv
    by_cases h : k0 = k
    · subst h
      simp [dictSet, List.lookup]
    · have hb : (k0 == k) = false := by simp [h]
      have hb2 : (k == k0) = false := by simp [Ne.symm h]
      simp [dictSet, List.lookup, hb, hb2, ih]

theorem lookup_dictSet_ne (kvs : List (String × Py)) (k k2 : String) (v : Py)
    (h : k2 ≠ k) :
    List.lookup k2 (dictSet kvs k v) = List.lookup k2 kvs := by
  have hb0 : (k2 == k) = false := by simp [h]
  induction kvs with
  | nil => simp [dictSet, List.lookup, hb0]
  | cons kv rest ih =>
    obtain ⟨k0, v0⟩ := kv
    by_cases h0 : k0 = k
    · subst h0
      have hb2 : (k2 == k0) = false := by simp [h]
      simp [dictSet, List.lookup, hb2]
    · have hb : (k0 == k) = false := by simp [h0]
      by_cases h2 : k2 = k0
      · subst h2
        simp [dictSet, List.lookup, hb]
      · have hb2 : (k2 == k0) = false := by simp [h2]
        simp [dictSet, List.lookup, hb, hb2, ih]

theorem lookup_dictUpdate_notMem (kvs extra : List (String × Py)) (k : String)
    (h : ∀ kv ∈ extra, kv.1 ≠ k) :
    List.lookup k (dictUpdate kvs extra) = List.lookup k kvs := by
  induction extra generalizing kvs with
  | nil => rfl
  | cons kv rest ih =>
    have hstep : dictUpdate kvs (kv :: rest) = dictUpdate (dictSet kvs kv.1 kv.2) rest := rfl
    rw [hstep, ih _ (fun kv2 hm => h kv2 (List.mem_cons_of_mem _ hm))]
    exact lookup_dictSet_ne _ _ _ _ (Ne.symm (h kv (List.mem_cons_self _ _)))

theorem lookup_setOptInt_ne (kvs : List (String × Py)) (k k2 : String)
    (v : Option Int) (h : k2 ≠ k) :
    List.lookup k2 (setOptInt kvs k v) = List.lookup k2 kvs := by
  cases v with
  | none => rfl
  | some n => exact lookup_dictSet_ne _ _ _ _ h

theorem lookup_setOptInt_self (kvs : List (String × Py)) (k : String)
    (v : Option Int) (h : List.lookup k kvs = Option.none) :
    List.lookup k (setOptInt kvs k v) = v.map Py.int := by
  cases v with
  | none => exact h
  | some n => exact lookup_dictSet_self _ _ _

theorem lookup_setTruthyStr_ne (kvs : List (String × Py)) (k k2 : String)
    (v : Option String) (h : k2 ≠ k) :
    List.lookup k2 (setTruthyStr kvs k v) = List.lookup k2 kvs := by
  cases v with
  | none => rfl
  | some s =>
    by_cases hs : s.isEmpty
    · simp [setTruthyStr, hs]
    · simp [setTruthyStr, hs, lookup_dictSet_ne _ _ _ _ h]

theorem lookup_setTruthyStr_self (kvs : List (String × Py)) (k : String)
    (v : Option String) (h : List.lookup k kvs = Option.none) :
    List.lookup k (setTruthyStr kvs k v) = optTruthyStrParam v := by
  cases v with
  | none => exact h
  | some s =>
    by_cases hs : s.isEmpty
    · simp [setTruthyStr, optTruthyStrParam, hs, h]
    · simp [setTruthyStr, optTruthyStrParam, hs, lookup_dictSet_self]

theorem lookup_setFields_ne (kvs : List (String × Py)) (k2 : String)
    (v : Option (List String)) (h : k2 ≠ "fields") :
    List.lookup k2 (setFields kvs v) = List.lookup k2 kvs := by
  cases v with
  | none => rfl
  | some fs =>
    by_cases hs : fs.isEmpty
    · simp [setFields, hs]
    · simp [setFields, hs, lookup_dictSet_ne _ _ _ _ h]

theorem lookup_setFields_self (kvs : List (String × Py))
    (v : Option (List String)) (h : List.lookup "fields" kvs = Option.none) :
    List.lookup "fields" (setFields kvs v) = fieldsParamVal v := by
  cases v with
  | none => exact h
  | some fs =>
    by_cases hs : fs.isEmpty
    · simp [setFields, fieldsParamVal, hs, h]
    · simp [setFields, fieldsParamVal, hs, lookup_dictSet_self]

theorem charsLE_total (a b : List Char) :
    charsLE a b = true ∨ charsLE b a = true := by
  induction a generalizing b with
  | nil => left; rfl
  | cons x xs ih =>
    cases b with
    | nil => right; rfl
    | cons y ys =>
      by_cases h : x.toNat = y.toNat
      · rcases ih ys with h1 | h1
        · left; simp [charsLE, h, h1]
        · right; simp [charsLE, h.symm, h1]
      · rcases Nat.lt_or_ge x.toNat y.toNat with hlt | hge
        · left; simp [charsLE, h, hlt]
        · have hlt2 : y.toNat < x.toNat :=
            Nat.lt_of_le_of_ne hge (fun e => h e.symm)
          have h2 : y.toNat ≠ x.toNat := fun e => h e.symm
          right; simp [charsLE, h2, hlt2]

theorem charsLE_trans (a b c : List Char) (h1 : charsLE a b = true)
    (h2 : charsLE b c = true) : charsLE a c = true := by
  induction a generalizing b c with
  | nil => rfl
  | cons x xs ih =>
    cases b with
    | nil => simp [charsLE] at h1
    | cons y ys =>
      cases c with
      | nil => simp [charsLE] at h2
      | cons z zs =>
        by_cases hxy : x.toNat = y.toNat <;> by_cases hyz : y.toNat = z.toNat
        · have hxz : x.toNat = z.toNat := hxy.trans hyz
          simp only [charsLE, hxy, hyz, hxz, if_true, eq_self_iff_true] at h1 h2 ⊢
          exact ih ys zs h1 h2
        · have hxz : x.toNat ≠ z.toNat := by rw [hxy]; exact hyz
          simp only [charsLE] at h2 ⊢
          rw [if_neg hyz] at h2
          rw [if_neg hxz]
          have hltyz : y.toNat < z.toNat := by
            by_contra hc
            simp [hc] at h2
          simp [hxy ▸ hltyz]
        · have hxz : x.toNat ≠ z.toNat := by rw [← hyz]; exact hxy
          simp only [charsLE] at h1 ⊢
          rw [if_neg hxy] at h1
          rw [if_neg hxz]
          have hltxy : x.toNat < y.toNat := by
            by_contra hc
            simp [hc] at h1
          simp [hyz ▸ hltxy]
        · simp only [charsLE] at h1 h2 ⊢
          rw [if_neg hxy] at h1
          rw [if_neg hyz] at h2
          have hltxy : x.toNat < y.toNat := by
            by_contra hc
            simp [hc] at h1
          have hltyz : y.toNat < z.toNat := by
            by_contra hc
            simp [hc] at h2
          have hltxz : x.toNat < z.toNat := hltxy.trans hltyz
          rw [if_neg (Nat.ne_of_lt hltxz)]
          simp [hltxz]

theorem strLE_total (s t : String) : strLE s t = true ∨ strLE t s = true :=
  charsLE_total s.data t.data

theorem strLE_trans (s t u : String) (h1 : strLE s t = true)
    (h2 : strLE t u = true) : strLE s u = true :=
  charsLE_trans s.data t.data u.data h1 h2

theorem applySortCI_error_shape (kvs : List (String × Py)) (sf ob : Py)
    (e : PyErr) (h : applySortCI kvs sf ob = .error e) :
    e = .attributeError "get" ∨ e = .attributeError "lower" := by
  unfold applySortCI at h
  split at h
  · exact absurd h (by simp)
  · split at h
    · exact absurd h (by simp)
    · split at h
      · split at h
        · exact absurd h (by simp)
        · injection h with h2
          exact .inl h2.symm
      · injection h with h2
        exact .inr h2.symm

theorem sortStep_error_shape (params : List (String × Py)) (rd : Py)
    (e : PyErr) (h : sortStep params rd = .error e) :
    e = .attributeError "get" ∨ e = .attributeError "lower" ∨
      e = .attributeError "keys" := by
  unfold sortStep at h
  split at h
  · split at h
    · rename_i kvs
      cases ha : applySortCI kvs ((List.lookup "sort" params).getD .pynone)
          ((List.lookup "orderBy" params).getD .pynone) with
      | ok kvs2 => rw [ha] at h; exact absurd h (by simp)
      | error e2 =>
        rw [ha] at h
        injection h with h2
        subst h2
        rcases applySortCI_error_shape _ _ _ _ ha with h3 | h3
        · exact .inl h3
        · exact .inr (.inl h3)
    · injection h with h2
      exact .inr (.inr h2.symm)
  · exact absurd h (by simp)

theorem reqStr_error_shape (kvs : List (String × Py)) (k : String) (e : PyErr)
    (h : reqStr kvs k = .error e) : ∃ m, e = .validationError m := by
  unfold reqStr at h
  split at h
  · exact absurd h (by simp)
  · injection h with h2
    exact ⟨_, h2.symm⟩
  · injection h with h2
    exact ⟨_, h2.symm⟩

theorem mkUser_roles_empty (kvs : List (String × Py)) (fid : String)
    (h : List.lookup "roles" kvs = some (.list [])) :
    ∃ m, mkUser kvs fid = .error (.validationError m) := by
  have hr : reqList kvs "roles" = .ok [] := by simp [reqList, h]
  cases hg : reqStr kvs "givenName" with
  | error e =>
    obtain ⟨m, hm⟩ := reqStr_error_shape _ _ _ hg
    exact ⟨m, by rw [mkUser, hg, hm]⟩
  | ok g =>
    cases hf : reqStr kvs "familyName" with
    | error e =>
      obtain ⟨m, hm⟩ := reqStr_error_shape _ _ _ hf
      exact ⟨m, by rw [mkUser, hg, hf, hm]⟩
    | ok fam =>
      exact ⟨"At least one role is required", by rw [mkUser, hg, hf, hr]; rfl⟩

theorem handleResponse_ok_parsed (params : List (String × Py))
    (resp : HttpResponse) (v : Py)
    (h1 : (400 ≤ resp.status && resp.status < 600) = false)
    (h2 : pyStripEmpty resp.text = false)
    (h3 : resp.jsonBody = some v) :
    handleResponse params resp = sortStep params v := by
  simp [handleResponse, h1, h2, h3]

/-- C1 (amended): for every HTTP response received by
TimeBackService._make_request, the call raises an exception carrying the
status code and body text if and only if the status is in 400..599 (the
range raise_for_status covers), rather than for every non-2xx status; on
a status outside that range it returns the parsed JSON body (after the
client-side sort step when sort and orderBy params are present), or the
success-message dictionary for an empty or non-JSON body. -/
theorem claim_C1_error_handling (params : List (String × Py)) (resp : HttpResponse) :
    (400 ≤ resp.status ∧ resp.status < 600 →
      handleResponse params resp = .error (.httpError resp.status resp.text)) ∧
    (∀ st b, handleResponse params resp = .error (.httpError st b) →
      (400 ≤ resp.status ∧ resp.status < 600) ∧ st = resp.status ∧ b = resp.text) ∧
    (¬(400 ≤ resp.status ∧ resp.status < 600) →
      (pyStripEmpty resp.text = true → handleResponse params resp = .ok emptyMsgPy) ∧
      (pyStripEmpty resp.text = false → resp.jsonBody = Option.none →
        handleResponse params resp = .ok (nonJsonMsgPy resp.text)) ∧
      (∀ v, pyStripEmpty resp.text = false → resp.jsonBody = some v →
        sortParamsPresent params = false → handleResponse params resp = .ok v)) := by
  cases hbool : (400 ≤ resp.status && resp.status < 600) with
  | true =>
    have hprop : 400 ≤ resp.status ∧ resp.status < 600 := by
      simpa using hbool
    have hres : handleResponse params resp = .error (.httpError resp.status resp.text) := by
      simp [handleResponse, hbool]
    refine ⟨fun _ => hres, ?_, fun hnot => absurd hprop hnot⟩
    intro st b h
    rw [hres] at h
    injection h with h2
    injection h2 with h3 h4
    exact ⟨hprop, h3.symm, h4.symm⟩
  | false =>
    have hnotprop : ¬(400 ≤ resp.status ∧ resp.status < 600) := by
      intro hc
      simp [hc.1, hc.2] at hbool
    refine ⟨fun hc => absurd hc hnotprop, ?_, ?_⟩
    · intro st b h
      cases hemp : pyStripEmpty resp.text with
      | true =>
        have : handleResponse params resp = .ok emptyMsgPy := by
          simp [handleResponse, hbool, hemp]
        rw [this] at h
        exact absurd h (by simp)
      | false =>
        cases hjson : resp.jsonBody with
        | none =>
          have : handleResponse params resp = .ok (nonJsonMsgPy resp.text) := by
            simp [handleResponse, hbool, hemp, hjson]
          rw [this] at h
          exact absurd h (by simp)
        | some v =>
          have h5 : handleResponse params resp = sortStep params v :=
            handleResponse_ok_parsed _ _ _ hbool hemp hjson
          rw [h5] at h
          rcases sortStep_error_shape _ _ _ h with h6 | h6 | h6 <;> simp at h6
    · intro hnot2
      refine ⟨?_, ?_, ?_⟩
      · intro hemp
        simp [handleResponse, hbool, hemp]
      · intro hemp hjson
        simp [handleResponse, hbool, hemp, hjson]
      · intro v hemp hjson hsort
        rw [handleResponse_ok_parsed _ _ _ hbool hemp hjson]
        simp [sortStep, hsort]

theorem claim_C1_witness :
    handleResponse [] ⟨500, "boom", Option.none⟩ =
      .error (.httpError 500 "boom") ∧
    handleResponse [] ⟨201, "ok", some (.dict [("k", .str "v")])⟩ =
      .ok (.dict [("k", .str "v")]) :=
  ⟨(claim_C1_error_handling [] ⟨500, "boom", Option.none⟩).1 (by norm_num),
   ((claim_C1_error_handling [] ⟨201, "ok", some (.dict [("k", .str "v")])⟩).2.2
      (by norm_num)).2.2 (.dict [("k", .str "v")]) rfl rfl rfl⟩

/-- C1 counterexample: a 304 response with an empty body is not 2xx, yet
_make_request does not raise; it returns the empty-response success
message, because raise_for_status only raises for 4xx/5xx. -/
theorem claim_C1_counterexample :
    handleResponse [] ⟨304, "", Option.none⟩ = .ok emptyMsgPy ∧
    ¬(200 ≤ 304 ∧ 304 < 300) :=
  ⟨rfl, by decide⟩

/-- C2 (amended): the QTI staging-to-production retry fires exactly when
the first response is a 404 and the environment string lower-cases to
staging (the code compares case-insensitively): the identical request
(same method, JSON body and query params) is sent exactly once more,
against the production QTI base URL, and the outcome is determined by
that retried response; otherwise the single request stands and its
response is handled as usual. -/
theorem claim_C2_qti_retry (env qtiUrl endpoint method : String) (data : Py)
    (params : List (String × Py)) (resp1 resp2 : HttpResponse) :
    (lowerStr env = "staging" ∧ resp1.status = 404 →
      qtiRequests env qtiUrl endpoint method data params resp1 =
        [qtiFirstRequest qtiUrl endpoint method data params,
         { qtiFirstRequest qtiUrl endpoint method data params with
             url := joinUrl qtiProductionUrl endpoint }] ∧
      qtiOutcome env resp1 resp2 = qtiHandle resp2) ∧
    (¬(lowerStr env = "staging" ∧ resp1.status = 404) →
      qtiRequests env qtiUrl endpoint method data params resp1 =
        [qtiFirstRequest qtiUrl endpoint method data params] ∧
      qtiOutcome env resp1 resp2 = qtiHandle resp1) := by
  constructor
  · intro ⟨h1, h2⟩
    have hc : qtiRetryCond env resp1.status = true := by
      simp [qtiRetryCond, h1, h2]
    exact ⟨by simp [qtiRequests, hc], by simp [qtiOutcome, hc]⟩
  · intro hn
    have hc : qtiRetryCond env resp1.status = false := by
      cases hc2 : qtiRetryCond env resp1.status with
      | false => rfl
      | true =>
        simp [qtiRetryCond] at hc2
        exact absurd ⟨hc2.2, hc2.1⟩ hn
    exact ⟨by simp [qtiRequests, hc], by simp [qtiOutcome, hc]⟩

theorem claim_C2_witness :
    qtiRequests "staging" "https://qti-staging.alpha-1edtech.com/api"
        "/assessment-items" "GET" .pynone [] ⟨404, "nf", Option.none⟩ =
      [⟨"GET", "https://qti-staging.alpha-1edtech.com/api/assessment-items",
        .pynone, []⟩,
       ⟨"GET", "https://qti.alpha-1edtech.com/api/assessment-items",
        .pynone, []⟩] ∧
    qtiOutcome "staging" ⟨404, "nf", Option.none⟩
        ⟨200, "js", some (.dict [("ok", .bool true)])⟩ =
      .ok (.dict [("ok", .bool true)]) := by
  have h := claim_C2_qti_retry "staging" "https://qti-staging.alpha-1edtech.com/api"
    "/assessment-items" "GET" .pynone [] ⟨404, "nf", Option.none⟩
    ⟨200, "js", some (.dict [("ok", .bool true)])⟩
  obtain ⟨ha, hb⟩ := h.1 ⟨rfl, rfl⟩
  exact ⟨ha.trans rfl, hb.trans rfl⟩

/-- C2 counterexample: the claim says that for any environment value other
than staging no retry is made, but the code lower-cases the environment
first, so the environment STAGING also triggers the retry. -/
theorem claim_C2_counterexample :
    (qtiRequests "STAGING" "https://qti-staging.alpha-1edtech.com/api"
        "/assessment-items" "GET" .pynone [] ⟨404, "nf", Option.none⟩).length = 2 ∧
    "STAGING" ≠ "staging" :=
  ⟨rfl, by decide⟩

/-- C3 (code bug): when the initial fetch inside UsersAPI.delete_user
fails with HTTP 404, the 404 handler never fires, because the guard
tests the truthiness of e.response and requests.Response.__bool__ is
self.ok, which is False for a 404; delete_user therefore re-raises
instead of returning the success message its docstring and the claim
describe. -/
theorem claim_C3_delete_404 :
    deleteUser "user-1" (.error (.httpError 404 "Not Found")) =
      .error (.httpError 404 "Not Found") ∧
    respTruthy 404 = false :=
  ⟨rfl, rfl⟩

/-- C5 (code bug): create_user and update_user call user.to_dict(), but
the User model defines no to_dict method (only to_api_dict,
to_create_dict, to_update_dict and the pydantic serializers), so both
calls raise AttributeError for every valid user instead of sending the
wrapped user payload. -/
theorem claim_C5_to_dict_missing :
    createUserFromModel exampleUser = .error (.attributeError "to_dict") ∧
    updateUserFromModel "u-1" exampleUser = .error (.attributeError "to_dict") ∧
    userToDictAttr = Option.none :=
  ⟨rfl, rfl, rfl⟩

/-- C4: required-field validation raises before any network I/O: a
create_org dict argument whose inner org dict has a missing or falsy
name or type raises ValueError, an Org model with a falsy name raises
ValueError, and a User built with an empty roles list (directly or
inside create_user / update_user on a dict) raises a validation error;
in every case the function aborts without producing an ApiCall, so no
HTTP request is issued. -/
theorem claim_C4_validation_before_io :
    (∀ kvs d, List.lookup "org" kvs = some (.dict d) →
        pyTruthyOpt (List.lookup "name" d) = false →
        createOrg (.inr kvs) = .error (.valueError orgNameReqMsg)) ∧
    (∀ d, List.lookup "org" d = Option.none →
        pyTruthyOpt (List.lookup "name" d) = false →
        createOrg (.inr d) = .error (.valueError orgNameReqMsg)) ∧
    (∀ kvs d, List.lookup "org" kvs = some (.dict d) →
        pyTruthyOpt (List.lookup "name" d) = true →
        pyTruthyOpt (List.lookup "type" d) = false →
        createOrg (.inr kvs) = .error (.valueError orgTypeReqMsg)) ∧
    (∀ d, List.lookup "org" d = Option.none →
        pyTruthyOpt (List.lookup "name" d) = true →
        pyTruthyOpt (List.lookup "type" d) = false →
        createOrg (.inr d) = .error (.valueError orgTypeReqMsg)) ∧
    (∀ o : Org, o.name = "" →
        createOrg (.inl o) = .error (.valueError orgNameReqMsg)) ∧
    (∀ kvs fid, List.lookup "roles" kvs = some (.list []) →
        ∃ m, mkUser kvs fid = .error (.validationError m)) ∧
    (∀ kvs d fid, innerUserDict kvs = .ok d →
        List.lookup "roles" d = some (.list []) →
        (∃ m, createUserFromDict kvs fid = .error (.validationError m)) ∧
        (∀ uid, ∃ m, updateUserFromDict uid kvs fid =
          .error (.validationError m))) := by
  refine ⟨?_, ?_, ?_, ?_, ?_, ?_, ?_⟩
  · intro kvs d horg hname
    simp [createOrg, createOrgDictParts, horg, hname]
  · intro d horg hname
    simp [createOrg, createOrgDictParts, horg, hname]
  · intro kvs d horg hname htype
    simp [createOrg, createOrgDictParts, horg, hname, htype]
  · intro d horg hname htype
    simp [createOrg, createOrgDictParts, horg, hname, htype]
  · intro o hname
    simp [createOrg, hname]
    decide
  · intro kvs fid hroles
    exact mkUser_roles_empty kvs fid hroles
  · intro kvs d fid hinner hroles
    obtain ⟨m, hm⟩ := mkUser_roles_empty d fid hroles
    refine ⟨⟨m, ?_⟩, fun uid => ⟨m, ?_⟩⟩
    · simp [createUserFromDict, hinner, hm]
    · simp [updateUserFromDict, hinner, hm]

theorem claim_C4_witness :
    createOrg (.inr [("org", .dict [("type", .str "school")])]) =
      .error (.valueError orgNameReqMsg) ∧
    createOrg (.inr [("type", .str "school")]) =
      .error (.valueError orgNameReqMsg) ∧
    createOrg (.inr [("org", .dict [("name", .str "Springfield")])]) =
      .error (.valueError orgTypeReqMsg) ∧
    createOrg (.inr [("name", .str "Springfield")]) =
      .error (.valueError orgTypeReqMsg) ∧
    createOrg (.inl { exampleOrg with name := "" }) =
      .error (.valueError orgNameReqMsg) ∧
    (∃ m, mkUser [("givenName", .str "A"), ("familyName", .str "B"),
        ("roles", .list [])] "fid" = .error (.validationError m)) ∧
    (∃ m, createUserFromDict [("givenName", .str "A"), ("familyName", .str "B"),
        ("roles", .list [])] "fid" = .error (.validationError m)) :=
  ⟨claim_C4_validation_before_io.1 _ [("type", .str "school")] rfl rfl,
   claim_C4_validation_before_io.2.1 _ rfl rfl,
   claim_C4_validation_before_io.2.2.1 _ [("name", .str "Springfield")] rfl rfl rfl,
   claim_C4_validation_before_io.2.2.2.1 _ rfl rfl rfl,
   claim_C4_validation_before_io.2.2.2.2.1 _ rfl,
   claim_C4_validation_before_io.2.2.2.2.2.1 _ "fid" rfl,
   (claim_C4_validation_before_io.2.2.2.2.2.2
      [("givenName", .str "A"), ("familyName", .str "B"), ("roles", .list [])]
      [("givenName", .str "A"), ("familyName", .str "B"), ("roles", .list [])]
      "fid" rfl rfl).1⟩

/-- C6 (amended): list_orgs passes limit, offset, sort (as sort),
order_by (as orderBy), filter_expr (as filter) and fields (joined with
commas) through to the query params exactly when supplied and truthy
(is-not-None for limit and offset) and leaves them absent otherwise;
list_users does the same for limit, offset, sort, orderBy and fields,
but its filter param is always present, carrying the caller value only
after the status-defaulting rule; extra params must not collide with
these keys (the Python signature prevents every collision except
orderBy). -/
theorem claim_C6_list_params (limit offset : Option Int)
    (sort orderBy filterExpr fl : Option String)
    (fields : Option (List String)) (extra : List (String × Py))
    (hextra : ∀ kv ∈ extra, ¬ kv.1 ∈ stdParamKeys) :
    (List.lookup "limit"
        (listUsersParams limit offset sort orderBy filterExpr fl fields extra) =
      limit.map Py.int) ∧
    (List.lookup "offset"
        (listUsersParams limit offset sort orderBy filterExpr fl fields extra) =
      offset.map Py.int) ∧
    (List.lookup "sort"
        (listUsersParams limit offset sort orderBy filterExpr fl fields extra) =
      optTruthyStrParam sort) ∧
    (List.lookup "orderBy"
        (listUsersParams limit offset sort orderBy filterExpr fl fields extra) =
      optTruthyStrParam orderBy) ∧
    (List.lookup "fields"
        (listUsersParams limit offset sort orderBy filterExpr fl fields extra) =
      fieldsParamVal fields) ∧
    (List.lookup "filter"
        (listUsersParams limit offset sort orderBy filterExpr fl fields extra) =
      some (.str (usersFilterValue filterExpr fl))) ∧
    (List.lookup "limit"
        (listOrgsParams limit offset sort orderBy filterExpr fields) =
      limit.map Py.int) ∧
    (List.lookup "offset"
        (listOrgsParams limit offset sort orderBy filterExpr fields) =
      offset.map Py.int) ∧
    (List.lookup "sort"
        (listOrgsParams limit offset sort orderBy filterExpr fields) =
      optTruthyStrParam sort) ∧
    (List.lookup "orderBy"
        (listOrgsParams limit offset sort orderBy filterExpr fields) =
      optTruthyStrParam orderBy) ∧
    (List.lookup "fields"
        (listOrgsParams limit offset sort orderBy filterExpr fields) =
      fieldsParamVal fields) ∧
    (List.lookup "filter"
        (listOrgsParams limit offset sort orderBy filterExpr fields) =
      optTruthyStrParam filterExpr) := by
  have hne : ∀ (k : String), k ∈ stdParamKeys → ∀ kv ∈ extra, kv.1 ≠ k := by
    intro k hk kv hm e
    exact hextra kv hm (e ▸ hk)
  refine ⟨?_, ?_, ?_, ?_, ?_, ?_, ?_, ?_, ?_, ?_, ?_, ?_⟩
  · rw [listUsersParams, lookup_dictUpdate_notMem _ _ _ (hne "limit" (by decide)),
      lookup_setFields_ne _ _ _ (by decide),
      lookup_dictSet_ne _ _ _ _ (by decide),
      lookup_setTruthyStr_ne _ _ _ _ (by decide),
      lookup_setTruthyStr_ne _ _ _ _ (by decide),
      lookup_setOptInt_ne _ _ _ _ (by decide),
      lookup_setOptInt_self _ _ _ (by simp)]
  · rw [listUsersParams, lookup_dictUpdate_notMem _ _ _ (hne "offset" (by decide)),
      lookup_setFields_ne _ _ _ (by decide),
      lookup_dictSet_ne _ _ _ _ (by decide),
      lookup_setTruthyStr_ne _ _ _ _ (by decide),
      lookup_setTruthyStr_ne _ _ _ _ (by decide),
      lookup_setOptInt_self _ _ _
        (by rw [lookup_setOptInt_ne _ _ _ _ (by decide)]; rfl)]
  · rw [listUsersParams, lookup_dictUpdate_notMem _ _ _ (hne "sort" (by decide)),
      lookup_setFields_ne _ _ _ (by decide),
      lookup_dictSet_ne _ _ _ _ (by decide),
      lookup_setTruthyStr_ne _ _ _ _ (by decide),
      lookup_setTruthyStr_self _ _ _
        (by rw [lookup_setOptInt_ne _ _ _ _ (by decide),
                lookup_setOptInt_ne _ _ _ _ (by decide)]; rfl)]
  · rw [listUsersParams, lookup_dictUpdate_notMem _ _ _ (hne "orderBy" (by decide)),
      lookup_setFields_ne _ _ _ (by decide),
      lookup_dictSet_ne _ _ _ _ (by decide),
      lookup_setTruthyStr_self _ _ _
        (by rw [lookup_setTruthyStr_ne _ _ _ _ (by decide),
                lookup_setOptInt_ne _ _ _ _ (by decide),
                lookup_setOptInt_ne _ _ _ _ (by decide)]; rfl)]
  · rw [listUsersParams, lookup_dictUpdate_notMem _ _ _ (hne "fields" (by decide)),
      lookup_setFields_self _ _
        (by rw [lookup_dictSet_ne _ _ _ _ (by decide),
                lookup_setTruthyStr_ne _ _ _ _ (by decide),
                lookup_setTruthyStr_ne _ _ _ _ (by decide),
                lookup_setOptInt_ne _ _ _ _ (by decide),
                lookup_setOptInt_ne _ _ _ _ (by decide)]; rfl)]
  · rw [listUsersParams, lookup_dictUpdate_notMem _ _ _ (hne "filter" (by decide)),
      lookup_setFields_ne _ _ _ (by decide),
      lookup_dictSet_self]
  · rw [listOrgsParams, lookup_setFields_ne _ _ _ (by decide),
      lookup_setTruthyStr_ne _ _ _ _ (by decide),
      lookup_setTruthyStr_ne _ _ _ _ (by decide),
      lookup_setTruthyStr_ne _ _ _ _ (by decide),
      lookup_setOptInt_ne _ _ _ _ (by decide),
      lookup_setOptInt_self _ _ _ (by simp)]
  · rw [listOrgsParams, lookup_setFields_ne _ _ _ (by decide),
      lookup_setTruthyStr_ne _ _ _ _ (by decide),
      lookup_setTruthyStr_ne _ _ _ _ (by decide),
      lookup_setTruthyStr_ne _ _ _ _ (by decide),
      lookup_setOptInt_self _ _ _
        (by rw [lookup_setOptInt_ne _ _ _ _ (by decide)]; rfl)]
  · rw [listOrgsParams, lookup_setFields_ne _ _ _ (by decide),
      lookup_setTruthyStr_ne _ _ _ _ (by decide),
      lookup_setTruthyStr_ne _ _ _ _ (by decide),
      lookup_setTruthyStr_self _ _ _
        (by rw [lookup_setOptInt_ne _ _ _ _ (by decide),
                lookup_setOptInt_ne _ _ _ _ (by decide)]; rfl)]
  · rw [listOrgsParams, lookup_setFields_ne _ _ _ (by decide),
      lookup_setTruthyStr_ne _ _ _ _ (by decide),
      lookup_setTruthyStr_self _ _ _
        (by rw [lookup_setTruthyStr_ne _ _ _ _ (by decide),
                lookup_setOptInt_ne _ _ _ _ (by decide),
                lookup_setOptInt_ne _ _ _ _ (by decide)]; rfl)]
  · rw [listOrgsParams, lookup_setFields_self _ _
        (by rw [lookup_setTruthyStr_ne _ _ _ _ (by decide),
                lookup_setTruthyStr_ne _ _ _ _ (by decide),
                lookup_setTruthyStr_ne _ _ _ _ (by decide),
                lookup_setOptInt_ne _ _ _ _ (by decide),
                lookup_setOptInt_ne _ _ _ _ (by decide)]; rfl)]
  · rw [listOrgsParams, lookup_setFields_ne _ _ _ (by decide),
      lookup_setTruthyStr_self _ _ _
        (by rw [lookup_setTruthyStr_ne _ _ _ _ (by decide),
                lookup_setTruthyStr_ne _ _ _ _ (by decide),
                lookup_setOptInt_ne _ _ _ _ (by decide),
                lookup_setOptInt_ne _ _ _ _ (by decide)]; rfl)]

theorem claim_C6_witness :
    List.lookup "limit"
        (listUsersParams (some 10) Option.none (some "familyName") Option.none
          Option.none Option.none (some ["sourcedId", "givenName"])
          [("search", .str "Amanda")]) = some (.int 10) ∧
    List.lookup "offset"
        (listUsersParams (some 10) Option.none (some "familyName") Option.none
          Option.none Option.none (some ["sourcedId", "givenName"])
          [("search", .str "Amanda")]) = Option.none ∧
    List.lookup "sort"
        (listUsersParams (some 10) Option.none (some "familyName") Option.none
          Option.none Option.none (some ["sourcedId", "givenName"])
          [("search", .str "Amanda")]) = some (.str "familyName") ∧
    List.lookup "fields"
        (listUsersParams (some 10) Option.none (some "familyName") Option.none
          Option.none Option.none (some ["sourcedId", "givenName"])
          [("search", .str "Amanda")]) = some (.str "sourcedId,givenName") ∧
    List.lookup "filter"
        (listOrgsParams (some 10) Option.none (some "familyName") Option.none
          Option.none (some ["sourcedId", "givenName"])) = Option.none := by
  have h := claim_C6_list_params (some 10) Option.none (some "familyName")
    Option.none Option.none Option.none (some ["sourcedId", "givenName"])
    [("search", .str "Amanda")] (by decide)
  exact ⟨h.1, h.2.1, h.2.2.1.trans (by rfl), h.2.2.2.2.1.trans (by rfl),
    h.2.2.2.2.2.2.2.2.2.2.2⟩

/-- C6 counterexample: a list_users call that supplies no filter still
sends one; the filter param is present with the status-active default,
so the filter argument is not absent when not supplied. -/
theorem claim_C6_counterexample :
    List.lookup "filter"
        (listUsersParams Option.none Option.none Option.none Option.none
          Option.none Option.none Option.none []) =
      some (.str statusActiveFilter) :=
  rfl

/-- C7: OAuth2 token caching: a truthy cached token whose stored expiry
lies after the current time is returned without any token request; on a
cache miss with both credentials set, a token request goes out and the
token is cached with expiry now + expires_in - 60; on a cache miss with
a missing credential the call returns None, and _make_request then
builds no Authorization header. -/
theorem claim_C7_token_caching (st : AuthState) (ci cs : Option String)
    (now : Int) (td : TokenData) :
    (∀ tok exp, st.accessToken = some tok → tok ≠ "" →
        st.tokenExpiry = some exp → 0 ≤ now → now < exp →
        getAuthToken st ci cs now td = ⟨some tok, st, false⟩) ∧
    ((truthyOptStr st.accessToken && truthyOptInt st.tokenExpiry &&
        decide (now < st.tokenExpiry.getD 0)) = false →
      truthyOptStr ci = true → truthyOptStr cs = true →
      getAuthToken st ci cs now td =
        ⟨some td.accessToken,
         ⟨some td.accessToken, some (now + td.expiresIn - 60)⟩, true⟩) ∧
    ((truthyOptStr st.accessToken && truthyOptInt st.tokenExpiry &&
        decide (now < st.tokenExpiry.getD 0)) = false →
      (truthyOptStr ci = false ∨ truthyOptStr cs = false) →
      getAuthToken st ci cs now td = ⟨Option.none, st, false⟩ ∧
      authHeaderOf (getAuthToken st ci cs now td).token = Option.none) := by
  refine ⟨?_, ?_, ?_⟩
  · intro tok exp h1 h2 h3 h4 h5
    have hexp : exp ≠ 0 := by omega
    have hcond : (truthyOptStr st.accessToken && truthyOptInt st.tokenExpiry &&
        decide (now < st.tokenExpiry.getD 0)) = true := by
      rw [h1, h3]
      have htok : tok.isEmpty = false := by
        cases he : tok.isEmpty
        · rfl
        · exact absurd (by simpa [String.isEmpty_iff] using he) h2
      simp [truthyOptStr, truthyOptInt, htok, hexp, h5]
    rw [getAuthToken, if_pos hcond, h1]
  · intro hc h1 h2
    rw [getAuthToken, if_neg (by rw [hc]; exact Bool.false_ne_true),
      if_neg (by rw [h1, h2]; decide)]
  · intro hc hdisj
    have hcc : (truthyOptStr ci && truthyOptStr cs) = false := by
      rcases hdisj with h | h <;> simp [h]
    have hres : getAuthToken st ci cs now td = ⟨Option.none, st, false⟩ := by
      rw [getAuthToken, if_neg (by rw [hc]; exact Bool.false_ne_true),
        if_pos (by rw [hcc]; rfl)]
    exact ⟨hres, by rw [hres]; rfl⟩

theorem claim_C7_witness :
    getAuthToken ⟨some "tok", some 100⟩ (some "id") (some "secret") 50
        ⟨"newtok", 3600⟩ = ⟨some "tok", ⟨some "tok", some 100⟩, false⟩ ∧
    getAuthToken ⟨Option.none, Option.none⟩ (some "id") (some "secret") 50
        ⟨"newtok", 3600⟩ =
      ⟨some "newtok", ⟨some "newtok", some (50 + 3600 - 60)⟩, true⟩ ∧
    getAuthToken ⟨Option.none, Option.none⟩ Option.none (some "secret") 50
        ⟨"newtok", 3600⟩ = ⟨Option.none, ⟨Option.none, Option.none⟩, false⟩ ∧
    authHeaderOf (getAuthToken ⟨Option.none, Option.none⟩ Option.none
        (some "secret") 50 ⟨"newtok", 3600⟩).token = Option.none := by
  have h1 := (claim_C7_token_caching ⟨some "tok", some 100⟩ (some "id")
    (some "secret") 50 ⟨"newtok", 3600⟩).1 "tok" 100 rfl (by decide) rfl
    (by norm_num) (by norm_num)
  have h2 := (claim_C7_token_caching ⟨Option.none, Option.none⟩ (some "id")
    (some "secret") 50 ⟨"newtok", 3600⟩).2.1 rfl rfl rfl
  have h3 := (claim_C7_token_caching ⟨Option.none, Option.none⟩ Option.none
    (some "secret") 50 ⟨"newtok", 3600⟩).2.2 rfl (.inl rfl)
  exact ⟨h1, h2, h3.1, h3.2⟩

/-- C8: every list_users request carries a filter query param: the
status-active default when the caller supplied nothing truthy, the
caller filter with the active-status conjunct appended when it lacks the
substring status=, and the caller filter unchanged when it contains
status=. -/
theorem claim_C8_active_filter (limit offset : Option Int)
    (sort orderBy filterExpr fl : Option String)
    (fields : Option (List String)) (extra : List (String × Py))
    (hextra : ∀ kv ∈ extra, kv.1 ≠ "filter") :
    List.lookup "filter"
        (listUsersParams limit offset sort orderBy filterExpr fl fields extra) =
      some (.str (usersFilterValue filterExpr fl)) ∧
    usersFilterValue Option.none Option.none = statusActiveFilter ∧
    (pyOrStrOpt filterExpr fl = Option.none →
      usersFilterValue filterExpr fl = statusActiveFilter) ∧
    (∀ v, pyOrStrOpt filterExpr fl = some v → v = "" →
      usersFilterValue filterExpr fl = statusActiveFilter) ∧
    (∀ v, pyOrStrOpt filterExpr fl = some v → v ≠ "" →
      pyInStr "status=" v = false →
      usersFilterValue filterExpr fl = v ++ " AND " ++ statusActiveFilter) ∧
    (∀ v, pyOrStrOpt filterExpr fl = some v → v ≠ "" →
      pyInStr "status=" v = true →
      usersFilterValue filterExpr fl = v) := by
  refine ⟨?_, rfl, ?_, ?_, ?_, ?_⟩
  · rw [listUsersParams, lookup_dictUpdate_notMem _ _ _ hextra,
      lookup_setFields_ne _ _ _ (by decide),
      lookup_dictSet_self]
  · intro h
    simp [usersFilterValue, h]
  · intro v h hv
    subst hv
    simp [usersFilterValue, h, show String.isEmpty "" = true from rfl]
  · intro v h hv hss
    simp [usersFilterValue, h, hss, String.isEmpty_iff, hv]
  · intro v h hv hss
    simp [usersFilterValue, h, hss, String.isEmpty_iff, hv]

theorem claim_C8_witness :
    List.lookup "filter"
        (listUsersParams Option.none Option.none Option.none Option.none
          (some ("role=" ++ quoteCh ++ "student" ++ quoteCh)) Option.none
          Option.none []) =
      some (.str (usersFilterValue
        (some ("role=" ++ quoteCh ++ "student" ++ quoteCh)) Option.none)) ∧
    usersFilterValue (some ("role=" ++ quoteCh ++ "student" ++ quoteCh))
        Option.none =
      ("role=" ++ quoteCh ++ "student" ++ quoteCh) ++ " AND " ++
        statusActiveFilter ∧
    usersFilterValue (some statusActiveFilter) Option.none =
      statusActiveFilter := by
  have h := claim_C8_active_filter Option.none Option.none Option.none
    Option.none (some ("role=" ++ quoteCh ++ "student" ++ quoteCh)) Option.none
    Option.none [] (by intro kv hm; cases hm)
  have h2 := claim_C8_active_filter Option.none Option.none Option.none
    Option.none (some statusActiveFilter) Option.none Option.none []
    (by intro kv hm; cases hm)
  refine ⟨h.1, ?_, ?_⟩
  · exact h.2.2.2.2.1 _ rfl (by decide) rfl
  · exact h2.2.2.2.2.2 _ rfl (by decide) rfl

/-- C9: when the request params carry both sort and orderBy, the
response handling re-sorts the first list-valued top-level collection of
the parsed JSON object client-side by the lower-cased string value of
the sort field (missing fields compare as the empty string), descending
exactly when orderBy lower-cases to desc; when no list-valued collection
exists, or the first one is empty (or its key is the falsy empty
string), the response is returned unchanged; and when either param is
absent no re-sorting happens at all.  The sorted collection is stated as
a permutation of the original that is sorted under the key order.  The
items are assumed to be JSON objects, as the sort key access requires. -/
theorem claim_C9_case_insensitive_sort :
    (∀ (params : List (String × Py)) (resp : HttpResponse) (f ob : String)
        (kvs : List (String × Py)),
      List.lookup "sort" params = some (.str f) →
      List.lookup "orderBy" params = some (.str ob) →
      params ≠ [] →
      pyOk resp.status = true →
      pyStripEmpty resp.text = false →
      resp.jsonBody = some (.dict kvs) →
      ((firstListEntry kvs = Option.none →
          handleResponse params resp = .ok (.dict kvs)) ∧
       (∀ k, firstListEntry kvs = some (k, []) →
          handleResponse params resp = .ok (.dict kvs)) ∧
       (∀ k items, firstListEntry kvs = some (k, items) → k ≠ "" →
          items ≠ [] → items.all isDictPy = true →
          ∃ out,
            handleResponse params resp = .ok (.dict (dictSet kvs k (.list out))) ∧
            out.Perm items ∧
            (lowerStr ob = "desc" →
              out.Sorted (fun a b =>
                strLE (sortKeyOf (.str f) b) (sortKeyOf (.str f) a) = true)) ∧
            (lowerStr ob ≠ "desc" →
              out.Sorted (fun a b =>
                strLE (sortKeyOf (.str f) a) (sortKeyOf (.str f) b) = true))))) ∧
    (∀ (params : List (String × Py)) (resp : HttpResponse) (v : Py),
      sortParamsPresent params = false →
      pyOk resp.status = true →
      pyStripEmpty resp.text = false →
      resp.jsonBody = some v →
      handleResponse params resp = .ok v) := by
  constructor
  · intro params resp f ob kvs hs ho hp hok hemp hjson
    have hbool : (400 ≤ resp.status && resp.status < 600) = false := by
      have h2 : resp.status < 400 ∨ 600 ≤ resp.status := by simpa [pyOk] using hok
      cases hb : (400 ≤ resp.status && resp.status < 600) with
      | false => rfl
      | true =>
        have h3 : 400 ≤ resp.status ∧ resp.status < 600 := by simpa using hb
        omega
    have hstep := handleResponse_ok_parsed params resp (.dict kvs) hbool hemp hjson
    have hpe : params.isEmpty = false := by
      cases params with
      | nil => exact absurd rfl hp
      | cons a l => rfl
    have hsp : sortParamsPresent params = true := by
      simp [sortParamsPresent, hs, ho, hpe]
    refine ⟨?_, ?_, ?_⟩
    · intro hnone
      rw [hstep]
      simp [sortStep, hsp, hs, ho, applySortCI, hnone]
    · intro k hk
      rw [hstep]
      simp [sortStep, hsp, hs, ho, applySortCI, hk]
    · intro k items hk hkne hne hall
      have hkemp : k.isEmpty = false := by
        cases he : k.isEmpty
        · rfl
        · exact absurd (by simpa [String.isEmpty_iff] using he) hkne
      have hiemp : items.isEmpty = false := by
        cases items with
        | nil => exact absurd rfl hne
        | cons a l => rfl
      refine ⟨pySortedBy (sortKeyOf (.str f)) (lowerStr ob == "desc") items,
        ?_, ?_, ?_, ?_⟩
      · rw [hstep]
        simp [sortStep, hsp, hs, ho, applySortCI, hk, hkemp, hiemp, hall]
      · rw [pySortedBy]
        split
        · exact @List.perm_insertionSort Py
            (fun a b => strLE (sortKeyOf (.str f) b) (sortKeyOf (.str f) a) = true)
            (fun _ _ => inferInstance) items
        · exact @List.perm_insertionSort Py
            (fun a b => strLE (sortKeyOf (.str f) a) (sortKeyOf (.str f) b) = true)
            (fun _ _ => inferInstance) items
      · intro hdesc
        have hb : (lowerStr ob == "desc") = true := by simp [hdesc]
        rw [pySortedBy, if_pos hb]
        haveI ht : IsTotal Py (fun a b =>
            strLE (sortKeyOf (.str f) b) (sortKeyOf (.str f) a) = true) :=
          ⟨fun a b => strLE_total (sortKeyOf (.str f) b) (sortKeyOf (.str f) a)⟩
        haveI htr : IsTrans Py (fun a b =>
            strLE (sortKeyOf (.str f) b) (sortKeyOf (.str f) a) = true) :=
          ⟨fun a b c hab hbc => strLE_trans _ _ _ hbc hab⟩
        exact @List.sorted_insertionSort Py
          (fun a b => strLE (sortKeyOf (.str f) b) (sortKeyOf (.str f) a) = true)
          (fun _ _ => inferInstance) ht htr items
      · intro hdesc
        have hb : (lowerStr ob == "desc") = false := by simp [hdesc]
        rw [pySortedBy, if_neg (by rw [hb]; exact Bool.false_ne_true)]
        haveI ht : IsTotal Py (fun a b =>
            strLE (sortKeyOf (.str f) a) (sortKeyOf (.str f) b) = true) :=
          ⟨fun a b => strLE_total (sortKeyOf (.str f) a) (sortKeyOf (.str f) b)⟩
        haveI htr : IsTrans Py (fun a b =>
            strLE (sortKeyOf (.str f) a) (sortKeyOf (.str f) b) = true) :=
          ⟨fun a b c hab hbc => strLE_trans _ _ _ hab hbc⟩
        exact @List.sorted_insertionSort Py
          (fun a b => strLE (sortKeyOf (.str f) a) (sortKeyOf (.str f) b) = true)
          (fun _ _ => inferInstance) ht htr items
  · intro params resp v hsp hok hemp hjson
    have hbool : (400 ≤ resp.status && resp.status < 600) = false := by
      have h2 : resp.status < 400 ∨ 600 ≤ resp.status := by simpa [pyOk] using hok
      cases hb : (400 ≤ resp.status && resp.status < 600) with
      | false => rfl
      | true =>
        have h3 : 400 ≤ resp.status ∧ resp.status < 600 := by simpa using hb
        omega
    rw [handleResponse_ok_parsed params resp v hbool hemp hjson]
    simp [sortStep, hsp]

theorem claim_C9_witness :
    (∃ out,
      handleResponse exSortParams exSortResp =
        .ok (.dict (dictSet exSortKvs "users" (.list out))) ∧
      out.Perm exUsersItems ∧
      (lowerStr "desc" = "desc" →
        out.Sorted (fun a b =>
          strLE (sortKeyOf (.str "familyName") b)
            (sortKeyOf (.str "familyName") a) = true)) ∧
      (lowerStr "desc" ≠ "desc" →
        out.Sorted (fun a b =>
          strLE (sortKeyOf (.str "familyName") a)
            (sortKeyOf (.str "familyName") b) = true))) ∧
    handleResponse exSortParams exSortResp = .ok (.dict exSortKvs) :=
  ⟨((claim_C9_case_insensitive_sort.1 exSortParams exSortResp "familyName"
      "desc" exSortKvs rfl rfl (by simp [exSortParams]) rfl rfl rfl).2.2)
    "users" exUsersItems rfl (by decide) (by simp [exUsersItems]) rfl, rfl⟩

/-- C10: update_org always sends a payload whose sourcedId equals the
org_id URL parameter: the model branch overwrites a differing sourcedId
and leaves every other field unchanged; the payload object carries
sourcedId equal to org_id; and the dict branch (sourcedId defaulted to
org_id when missing, then the built model overwritten the same way)
sends the PUT with the same guarantee. -/
theorem claim_C10_update_org (orgId : String) :
    (∀ o : Org,
      updateOrgModel orgId o =
        ⟨"/orgs/" ++ orgId, "PUT", orgToDict { o with sourcedId := orgId }, []⟩) ∧
    (∀ o : Org, ∃ inner,
      orgToDict { o with sourcedId := orgId } = .dict [("org", .dict inner)] ∧
      List.lookup "sourcedId" inner = some (.str orgId)) ∧
    (∀ kvs d freshId nowStr m,
      innerOrgForUpdate kvs = .ok d →
      mkOrg (if (List.lookup "sourcedId" d).isSome then d
             else dictSet d "sourcedId" (.str orgId)) freshId nowStr = .ok m →
      updateOrgDict orgId kvs freshId nowStr =
        .ok ⟨"/orgs/" ++ orgId, "PUT", orgToDict { m with sourcedId := orgId },
          []⟩) := by
  have hmod : ∀ o : Org, updateOrgModel orgId o =
      ⟨"/orgs/" ++ orgId, "PUT", orgToDict { o with sourcedId := orgId }, []⟩ := by
    intro o
    obtain ⟨n, t, sid, st, dlm, me, idf, pa⟩ := o
    by_cases h : sid = orgId
    · subst h
      simp [updateOrgModel]
    · simp [updateOrgModel, h]
  refine ⟨hmod, ?_, ?_⟩
  · intro o
    obtain ⟨n, t, sid, st, dlm, me, idf, pa⟩ := o
    cases me <;> cases idf <;> cases pa <;> exact ⟨_, rfl, rfl⟩
  · intro kvs d freshId nowStr m h1 h2
    simp [updateOrgDict, h1, h2, hmod]

theorem claim_C10_witness :
    updateOrgModel "org-1" exampleOrg =
      ⟨"/orgs/" ++ "org-1", "PUT",
        orgToDict { exampleOrg with sourcedId := "org-1" }, []⟩ ∧
    (∃ inner,
      orgToDict { exampleOrg with sourcedId := "org-1" } =
        .dict [("org", .dict inner)] ∧
      List.lookup "sourcedId" inner = some (.str "org-1")) ∧
    updateOrgDict "org-1"
        [("name", .str "Springfield High School"), ("type", .str "school")]
        "fresh-id" "2025-02-02T00:00:00Z" =
      .ok ⟨"/orgs/" ++ "org-1", "PUT",
        orgToDict
          { name := "Springfield High School", type := "school",
            sourcedId := "org-1", status := "active",
            dateLastModified := "2025-02-02T00:00:00Z",
            metadata := Option.none, identifier := Option.none,
            parent := Option.none },
        []⟩ :=
  ⟨(claim_C10_update_org "org-1").1 exampleOrg,
   (claim_C10_update_org "org-1").2.1 exampleOrg,
   (claim_C10_update_org "org-1").2.2
     [("name", .str "Springfield High School"), ("type", .str "school")]
     [("name", .str "Springfield High School"), ("type", .str "school")]
     "fresh-id" "2025-02-02T00:00:00Z"
     { name := "Springfield High School", type := "school",
       sourcedId := "org-1", status := "active",
       dateLastModified := "2025-02-02T00:00:00Z",
       metadata := Option.none, identifier := Option.none,
       parent := Option.none }
     rfl rfl⟩
